import Mathlib

/-!
Verification of the single-route Flask application in `backend/app.py`.

The source registers one view function, `hello`, on `GET /hello`, returning
`jsonify({"message": "Hello from Flask on Lambda!"})`, and exposes the Lambda
entry point `lambda_handler(event, context) = aws_wsgi.response(app, event, context)`.

Shallow embedding conventions:
* HTTP requests and responses are plain structures over `String`/`Nat`.
* Python values that can reach the JSON serializer are the inductive `PyVal`;
  serialization failures (non-serializable objects) are `Except.error`, matching
  Python exceptions.
* The Flask application object is the `World` structure (its URL rule table is
  its only module-level state); view functions thread the `World` explicitly so
  that absence of side effects is a provable statement, not an assumption.
* Flask's routing/dispatch machinery and the aws-wsgi adapter are third-party
  code not present in the repository; they are modelled from the specification
  and marked as such in their doc comments.
-/

/-- An HTTP request as seen by the framework: method, path, headers,
query string and body. -/
structure Request where
  method : String
  path : String
  headers : List (String × String)
  query : String
  body : String
deriving Repr, DecidableEq

/-- An HTTP response: status code, content type and body bytes. -/
structure Response where
  status : Nat
  contentType : String
  body : String
deriving Repr, DecidableEq

/-- A Python value that can be passed to the JSON serializer.  `obj` stands for
any object `json.dumps` cannot serialize. -/
inductive PyVal where
  | str (s : String)
  | int (n : Int)
  | dict (entries : List (String × PyVal))
  | obj (typeName : String)
deriving Repr

/-- The double-quote character, kept as a named constant. -/
def quoteChar : Char := Char.ofNat 34

/-- The backslash character, kept as a named constant. -/
def backslashChar : Char := Char.ofNat 92

/-- JSON string escaping for the characters that need it in this program
(double quote and backslash). -/
def jsonEscapeChar (c : Char) : String :=
  if c = quoteChar then String.singleton backslashChar ++ String.singleton quoteChar
  else if c = backslashChar then String.singleton backslashChar ++ String.singleton backslashChar
  else String.singleton c

/-- Escape every character of a string for inclusion in a JSON string literal. -/
def jsonEscape (s : String) : String :=
  String.join (s.toList.map jsonEscapeChar)

/-- A JSON string literal: escaped content between double quotes. -/
def jsonQuote (s : String) : String :=
  String.singleton quoteChar ++ jsonEscape s ++ String.singleton quoteChar

mutual

/-- Modelled from the spec: the JSON serializer used by Flask's `jsonify`
(`json.dumps` with default separators).  Strings and integers serialize to
their literals, dicts to brace-enclosed comma-separated `key: value` pairs,
and any other object raises, which we render as `Except.error`. -/
def dumps : PyVal → Except String String
  | .str s => .ok (jsonQuote s)
  | .int n => .ok (toString n)
  | .dict es =>
      (dumpsEntries es).map (fun parts => "\x7b" ++ String.intercalate ", " parts ++ "\x7d")
  | .obj typeName => .error ("Object of type " ++ typeName ++ " is not JSON serializable")

/-- Serialize the entries of a dict in order, propagating the first failure. -/
def dumpsEntries : List (String × PyVal) → Except String (List String)
  | [] => .ok []
  | (k, v) :: rest =>
      (dumps v).bind (fun sv =>
        (dumpsEntries rest).map (fun srest => (jsonQuote k ++ ": " ++ sv) :: srest))

end

/-- Modelled from the spec: Flask's `jsonify` serializes its argument and, on
success, wraps it in a fresh `200 application/json` response. -/
def jsonify (v : PyVal) : Except String Response :=
  (dumps v).map (fun b => ⟨200, "application/json", b⟩)

/-- The argument of the `jsonify` call in `hello`:
the dict literal `\x7b"message": "Hello from Flask on Lambda!"\x7d`. -/
def helloPayload : PyVal :=
  .dict [("message", .str "Hello from Flask on Lambda!")]

/-- The serialized greeting body. -/
def greetingBody : String :=
  "\x7b\"message\": \"Hello from Flask on Lambda!\"\x7d"

/-- The module-level state of `backend/app.py`: the Flask application object,
whose only content is its URL rule table (method, path, endpoint name). -/
structure World where
  url_rules : List (String × String × String)
deriving Repr, DecidableEq

/-- The application object built at import time: `app = Flask(__name__)`
followed by the single registration `@app.get("/hello")`. -/
def app : World := ⟨[("GET", "/hello", "hello")]⟩

/-- The view function `hello` from `backend/app.py`: it reads nothing from the
request or the environment, leaves the application state unchanged, and returns
`jsonify(\x7b"message": "Hello from Flask on Lambda!"\x7d)`.  A raised exception
would surface as `Except.error`. -/
def hello (w : World) : Except String (Response × World) :=
  (jsonify helloPayload).map (fun resp => (resp, w))

/-- Modelled from the spec: the framework's endpoint table maps the endpoint
name registered by the route decorator to its view function. -/
def view_function : String → World → Except String (Response × World)
  | "hello", w => hello w
  | endpoint, _ => .error ("no view function registered for endpoint " ++ endpoint)

/-- Body of the framework-default 404 response. -/
def notFoundBody : String :=
  "<!doctype html><title>404 Not Found</title><h1>Not Found</h1>"

/-- Body of the framework-default 405 response. -/
def methodNotAllowedBody : String :=
  "<!doctype html><title>405 Method Not Allowed</title><h1>Method Not Allowed</h1>"

/-- Body of the framework-default 500 response. -/
def internalServerErrorBody : String :=
  "<!doctype html><title>500 Internal Server Error</title><h1>Internal Server Error</h1>"

/-- Modelled from the spec: framework-default request dispatch.  A request
matching a rule's method and path runs that rule's view function (an unhandled
exception in the view yields the framework-default 500); a path with a rule but
no matching method yields the framework-default 405; an unmatched path yields
the framework-default 404. -/
def full_dispatch (w : World) (r : Request) : Response × World :=
  match w.url_rules.find? (fun rule => rule.1 == r.method && rule.2.1 == r.path) with
  | some rule =>
      match view_function rule.2.2 w with
      | .ok p => p
      | .error _ => (⟨500, "text/html", internalServerErrorBody⟩, w)
  | none =>
      if w.url_rules.any (fun rule => rule.2.1 == r.path) then
        (⟨405, "text/html", methodNotAllowedBody⟩, w)
      else
        (⟨404, "text/html", notFoundBody⟩, w)

/-- A platform invocation event.  The method and path are `Option`s so that a
malformed event (one the adapter cannot translate) is representable. -/
structure Event where
  httpMethod : Option String
  path : Option String
  headers : List (String × String)
  queryStringParameters : String
  body : String
deriving Repr, DecidableEq

/-- The platform invocation context object. -/
structure Context where
  aws_request_id : String
deriving Repr, DecidableEq

/-- The platform's expected response envelope: status, headers, body. -/
structure Envelope where
  statusCode : Nat
  headers : List (String × String)
  body : String
deriving Repr, DecidableEq

/-- Modelled from the spec: the adapter's translation of a platform event into
an equivalent HTTP request; a malformed event makes translation raise. -/
def translate_event (e : Event) : Except String Request :=
  match e.httpMethod, e.path with
  | some m, some p => .ok ⟨m, p, e.headers, e.queryStringParameters, e.body⟩
  | _, _ => .error "malformed event"

/-- Modelled from the spec: `aws_wsgi.response` translates the event, dispatches
the resulting request to the application, and converts the HTTP response into
the platform envelope; any exception during translation or dispatch propagates. -/
def aws_wsgi_response (w : World) (e : Event) (_c : Context) : Except String Envelope :=
  match translate_event e with
  | .error msg => .error msg
  | .ok r =>
      let p := full_dispatch w r
      .ok ⟨p.1.status, [("Content-Type", p.1.contentType)], p.1.body⟩

/-- The Lambda entry point from `backend/app.py`:
`lambda_handler(event, context) = aws_wsgi.response(app, event, context)`. -/
def lambda_handler (e : Event) (c : Context) : Except String Envelope :=
  aws_wsgi_response app e c

/-- Evaluation of the view function: `hello` returns the fixed greeting
response and leaves the state unchanged. -/
theorem hello_eval (w : World) :
    hello w = .ok (⟨200, "application/json", greetingBody⟩, w) := rfl

/-- Every registered view function that returns normally leaves the
application state unchanged. -/
theorem view_function_world (endpoint : String) (w : World) (p : Response × World)
    (h : view_function endpoint w = .ok p) : p.2 = w := by
  unfold view_function at h
  split at h
  · rw [hello_eval w] at h
    cases h
    rfl
  · cases h

/-- Dispatch never changes the application state. -/
theorem full_dispatch_world (w : World) (r : Request) : (full_dispatch w r).2 = w := by
  unfold full_dispatch
  split
  · split
    · rename_i p hp
      exact view_function_world _ w p hp
    · rfl
  · split <;> rfl

/-- Dispatching any GET `/hello` request runs `hello` and yields the greeting
response. -/
theorem dispatch_hello_eq (r : Request) (hm : r.method = "GET") (hp : r.path = "/hello") :
    full_dispatch app r = (⟨200, "application/json", greetingBody⟩, app) := by
  obtain ⟨m, p, hs, q, b⟩ := r
  simp only at hm hp
  subst hm
  subst hp
  rfl

/-- Dispatching any request that is not a GET to `/hello` yields the
framework-default 405 (path known, method not) or 404 (path unknown) response. -/
theorem dispatch_other_eq (r : Request) (h : ¬(r.method = "GET" ∧ r.path = "/hello")) :
    full_dispatch app r =
      (if r.path = "/hello" then (⟨405, "text/html", methodNotAllowedBody⟩, app)
       else (⟨404, "text/html", notFoundBody⟩, app)) := by
  obtain ⟨m, p, hs, q, b⟩ := r
  simp only at h ⊢
  by_cases hp : p = "/hello"
  · subst hp
    have hm : m ≠ "GET" := by
      intro hm
      exact h ⟨hm, rfl⟩
    have hb : (("GET" : String) == m) = false := by
      simp only [beq_eq_false_iff_ne, ne_eq]
      exact fun hh => hm hh.symm
    simp [full_dispatch, app, List.find?, hb]
  · have hb : (("/hello" : String) == p) = false := by
      simp only [beq_eq_false_iff_ne, ne_eq]
      exact fun hh => hp hh.symm
    have hp2 : ("/hello" : String) ≠ p := Ne.symm hp
    simp [full_dispatch, app, List.find?, hb, hp2]
    rw [if_neg hp]

/-- Claim C1: every HTTP GET request to `/hello` is answered with status 200 and
body exactly the JSON object with message "Hello from Flask on Lambda!". -/
theorem get_hello_status_and_body (r : Request)
    (hm : r.method = "GET") (hp : r.path = "/hello") :
    (full_dispatch app r).1.status = 200 ∧ (full_dispatch app r).1.body = greetingBody := by
  rw [dispatch_hello_eq r hm hp]
  exact ⟨rfl, rfl⟩

/-- Witness for C1: a concrete GET `/hello` request with headers and a query
string gets status 200 and the greeting body. -/
theorem get_hello_status_and_body_witness :
    (full_dispatch app ⟨"GET", "/hello", [("Accept", "text/plain")], "a=b", ""⟩).1.status = 200 ∧
    (full_dispatch app ⟨"GET", "/hello", [("Accept", "text/plain")], "a=b", ""⟩).1.body = greetingBody :=
  get_hello_status_and_body ⟨"GET", "/hello", [("Accept", "text/plain")], "a=b", ""⟩ rfl rfl

/-- Claim C2: every HTTP GET request to `/hello` is answered with content type
`application/json`. -/
theorem get_hello_content_type (r : Request)
    (hm : r.method = "GET") (hp : r.path = "/hello") :
    (full_dispatch app r).1.contentType = "application/json" := by
  rw [dispatch_hello_eq r hm hp]

/-- Witness for C2: a concrete GET `/hello` request gets a JSON content type. -/
theorem get_hello_content_type_witness :
    (full_dispatch app ⟨"GET", "/hello", [], "", ""⟩).1.contentType = "application/json" :=
  get_hello_content_type ⟨"GET", "/hello", [], "", ""⟩ rfl rfl

/-- Claim C3: a request to a path other than `/hello`, or to `/hello` with a
method other than GET, never receives the greeting payload; it falls through to
the framework-default 404 (unmatched path) or 405 (matched path, wrong method). -/
theorem unmatched_request_no_greeting (r : Request)
    (h : ¬(r.method = "GET" ∧ r.path = "/hello")) :
    (full_dispatch app r).1.body ≠ greetingBody ∧
    ((full_dispatch app r).1.status = 404 ∨ (full_dispatch app r).1.status = 405) := by
  rw [dispatch_other_eq r h]
  by_cases hp : r.path = "/hello"
  · rw [if_pos hp]
    exact ⟨by decide, Or.inr rfl⟩
  · rw [if_neg hp]
    exact ⟨by decide, Or.inl rfl⟩

/-- Witness for C3: a concrete POST `/hello` request is answered with 405 and a
body different from the greeting. -/
theorem unmatched_request_no_greeting_witness :
    (full_dispatch app ⟨"POST", "/hello", [], "", ""⟩).1.body ≠ greetingBody ∧
    ((full_dispatch app ⟨"POST", "/hello", [], "", ""⟩).1.status = 404 ∨
     (full_dispatch app ⟨"POST", "/hello", [], "", ""⟩).1.status = 405) :=
  unmatched_request_no_greeting ⟨"POST", "/hello", [], "", ""⟩ (by decide)

/-- Claim C4: the handler is idempotent and deterministic: dispatching the same
GET `/hello` request again, from the state the first invocation left behind,
yields a byte-identical response (same status, content type and body). -/
theorem get_hello_idempotent (r : Request)
    (_hm : r.method = "GET") (_hp : r.path = "/hello") :
    (full_dispatch (full_dispatch app r).2 r).1 = (full_dispatch app r).1 := by
  rw [full_dispatch_world app r]

/-- Witness for C4: two successive invocations on a concrete GET `/hello`
request return the same response. -/
theorem get_hello_idempotent_witness :
    (full_dispatch (full_dispatch app ⟨"GET", "/hello", [], "", ""⟩).2
        ⟨"GET", "/hello", [], "", ""⟩).1 =
    (full_dispatch app ⟨"GET", "/hello", [], "", ""⟩).1 :=
  get_hello_idempotent ⟨"GET", "/hello", [], "", ""⟩ rfl rfl

/-- Claim C5: noninterference of request content: any two GET `/hello` requests,
however they differ in headers, query string or body, receive the same
response. -/
theorem get_hello_noninterference (r1 r2 : Request)
    (hm1 : r1.method = "GET") (hp1 : r1.path = "/hello")
    (hm2 : r2.method = "GET") (hp2 : r2.path = "/hello") :
    (full_dispatch app r1).1 = (full_dispatch app r2).1 := by
  rw [dispatch_hello_eq r1 hm1 hp1, dispatch_hello_eq r2 hm2 hp2]

/-- Witness for C5: two concrete GET `/hello` requests with different headers,
query strings and bodies receive the same response. -/
theorem get_hello_noninterference_witness :
    (full_dispatch app ⟨"GET", "/hello", [("X-Secret", "sacred")], "debug=1", "payload"⟩).1 =
    (full_dispatch app ⟨"GET", "/hello", [], "", ""⟩).1 :=
  get_hello_noninterference
    ⟨"GET", "/hello", [("X-Secret", "sacred")], "debug=1", "payload"⟩
    ⟨"GET", "/hello", [], "", ""⟩ rfl rfl rfl rfl

/-- Claim C6: for every platform event representing an HTTP GET to `/hello` and
every context, `lambda_handler` returns the platform envelope with status 200,
a JSON content type header, and the greeting body. -/
theorem lambda_handler_get_hello (e : Event) (c : Context)
    (hm : e.httpMethod = some "GET") (hp : e.path = some "/hello") :
    lambda_handler e c =
      .ok ⟨200, [("Content-Type", "application/json")], greetingBody⟩ := by
  obtain ⟨em, ep, hs, q, b⟩ := e
  simp only at hm hp
  subst hm
  subst hp
  have hd := dispatch_hello_eq ⟨"GET", "/hello", hs, q, b⟩ rfl rfl
  unfold lambda_handler aws_wsgi_response translate_event
  simp [hd]

/-- Witness for C6: a concrete GET `/hello` event with extra headers, query
string and body is answered with the 200 greeting envelope. -/
theorem lambda_handler_get_hello_witness :
    lambda_handler ⟨some "GET", some "/hello", [("Host", "example.org")], "x=1", "ignored"⟩
        ⟨"req-42"⟩ =
      .ok ⟨200, [("Content-Type", "application/json")], greetingBody⟩ :=
  lambda_handler_get_hello
    ⟨some "GET", some "/hello", [("Host", "example.org")], "x=1", "ignored"⟩
    ⟨"req-42"⟩ rfl rfl

/-- Claim C7: whenever the adapter's translation or dispatch raises,
`lambda_handler` propagates that very exception unchanged: it installs no
handler, performs no recovery and no retry. -/
theorem lambda_handler_propagates (e : Event) (c : Context) (msg : String)
    (h : aws_wsgi_response app e c = .error msg) :
    lambda_handler e c = .error msg := h

/-- Witness for C7: a malformed event (missing HTTP method) makes the adapter
raise, and `lambda_handler` returns exactly that error. -/
theorem lambda_handler_propagates_witness :
    lambda_handler ⟨none, some "/hello", [], "", ""⟩ ⟨"req-7"⟩ = .error "malformed event" :=
  lambda_handler_propagates ⟨none, some "/hello", [], "", ""⟩ ⟨"req-7"⟩ "malformed event" rfl

/-- Claim C8: an invocation has no observable side effects: dispatching any
request leaves the application object (the only module-level state) exactly as
it was. -/
theorem dispatch_no_side_effects (r : Request) :
    (full_dispatch app r).2 = app :=
  full_dispatch_world app r

/-- Claim C9: `lambda_handler` returns exactly `aws_wsgi.response(app, event,
context)`: the entry point is extensionally equal to the adapter applied to the
fixed application object, with no transformation of the result. -/
theorem lambda_handler_delegates (e : Event) (c : Context) :
    lambda_handler e c = aws_wsgi_response app e c := rfl

/-- Claim C10: the view function `hello` is total: on every application state it
terminates without raising and returns the fixed serialized greeting response,
leaving the state unchanged. -/
theorem hello_never_raises (w : World) :
    hello w = .ok (⟨200, "application/json", greetingBody⟩, w) := rfl
